import Mathlib

/-!
Verification development for the resilient AI dispatch layer of the
`koiyahoney/edcel` repository.

The development shallowly embeds the three JavaScript source components that
the specification describes:

* the key pool (`groq-client.js`): `keyStatus` records, `_resetIfExpired`,
  `getAvailableClient`, `markKeyLimited`, `getKeysInfo`;
* the single-backend dispatcher (`groq-ai.js`): `chatWithAI` with its
  attempt loop, error classification and fallback messages;
* the multi-provider dispatcher (`multi-ai`, the unnamed source file):
  `chatWithAI` over a priority-sorted provider list with per-provider
  quarantine.

Machine integers are modelled as `Nat` (timestamps in milliseconds, as
`Date.now()` returns).  JavaScript truthiness of the stored `resetTime`
value (`null` is falsy, and so is the number `0`) is modelled explicitly.
Fallible backend calls are modelled by an oracle giving the classified
result of each successive invocation.
-/

/-- JavaScript template interpolation of a boolean value. -/
def jsBool (b : Bool) : String := if b then "true" else "false"

/-- ASCII lower-casing of one character (the case-insensitivity flag of the
source regexes; all patterns involved are ASCII). -/
def lowerChar (c : Char) : Char :=
  if 65 ≤ c.toNat ∧ c.toNat ≤ 90 then Char.ofNat (c.toNat + 32) else c

/-- Characters of the lower-cased string, for case-insensitive regex tests. -/
def lowerChars (s : String) : List Char := s.toList.map lowerChar

/-- Whether `p` is a prefix of `l`, as a boolean on character lists. -/
def charsPrefix : List Char → List Char → Bool
  | [], _ => true
  | _ :: _, [] => false
  | a :: as, b :: bs => a == b && charsPrefix as bs

/-- Drop through the first occurrence of `p` in `l`, returning the remainder
after it, or `none` when `p` does not occur. -/
def dropThrough (p : List Char) : List Char → Option (List Char)
  | [] => if charsPrefix p [] then some [] else none
  | c :: cs =>
    if charsPrefix p (c :: cs) then some ((c :: cs).drop p.length)
    else dropThrough p cs

/-- Whether `p` occurs as a contiguous sublist of `l`. -/
def charsContains (p l : List Char) : Bool := (dropThrough p l).isSome

/-- Case-insensitive substring test, modelling `/pat/i.test(msg)` for a
pattern that is a literal (the pattern is given lower-case). -/
def containsCI (msg pat : String) : Bool :=
  charsContains pat.toList (lowerChars msg)

/-- Split a character list at newline characters. -/
def splitOnNl : List Char → List (List Char)
  | [] => [[]]
  | c :: cs =>
    if c == '\n' then [] :: splitOnNl cs
    else
      match splitOnNl cs with
      | [] => [[c]]
      | l :: ls => (c :: l) :: ls

/-- The `/invalid.*key/i` test: in JavaScript `.` does not match a newline,
so the match must lie within one line: some line of the lower-cased message
contains `invalid` followed (later in the same line) by `key`. -/
def invalidKeyMatch (msg : String) : Bool :=
  (splitOnNl (lowerChars msg)).any (fun line =>
    match dropThrough "invalid".toList line with
    | some rest => charsContains "key".toList rest
    | none => false)

/-! ## Key pool (`groq-client.js`) -/

/-- Health record of one API key: `{ limited: false, resetTime: null }`. -/
structure KeyStatus where
  limited : Bool
  resetTime : Option Nat
deriving DecidableEq

/-- Mutable state of the key pool: the per-key status array and the
rotation cursor `currentIndex`. -/
structure PoolState where
  keyStatus : List KeyStatus
  currentIndex : Nat
deriving DecidableEq

/-- JavaScript truthiness of the stored `resetTime`: `null` is falsy and so
is the number `0`. -/
def jsTruthyTime : Option Nat → Bool
  | none => false
  | some t => t != 0

/-- Numeric value of the stored `resetTime` (`0` for `null`; the comparison
is only reached when the value is truthy). -/
def timeValue : Option Nat → Nat
  | none => 0
  | some t => t

/-- `_resetIfExpired`: clear the limited flag once the current time has
passed `resetTime` (guarded by JavaScript truthiness of all conjuncts). -/
def resetIfExpired (now : Nat) (st : KeyStatus) : KeyStatus :=
  if st.limited && jsTruthyTime st.resetTime && decide (timeValue st.resetTime < now)
  then ⟨false, none⟩ else st

/-- The status array after the `_resetIfExpired` sweep that
`getAvailableClient` performs over every key. -/
def refreshStatuses (now : Nat) (s : PoolState) : List KeyStatus :=
  s.keyStatus.map (resetIfExpired now)

/-- The selection scan: for `i = 0, 1, ...` (with `fuel` iterations
remaining, started at the pool size) probe `idx = (cur + i) % n` and return
the first index whose key is not limited. -/
def scanFrom (st : List KeyStatus) (cur : Nat) : Nat → Nat → Option Nat
  | _, 0 => none
  | i, Nat.succ fuel =>
    let idx := (cur + i) % st.length
    if (st.getD idx ⟨false, none⟩).limited then scanFrom st cur (i + 1) fuel
    else some idx

/-- `getAvailableClient`: sweep expired quarantines, then scan from the
rotation cursor for an unlimited key; on a hit the cursor is set to the
returned index.  Returns the chosen key index with the updated pool. -/
def getAvailableClient (now : Nat) (s : PoolState) : Option Nat × PoolState :=
  if s.keyStatus.length = 0 then (none, s)
  else
    match scanFrom (refreshStatuses now s) s.currentIndex 0 (refreshStatuses now s).length with
    | some idx => (some idx, ⟨refreshStatuses now s, idx⟩)
    | none => (none, ⟨refreshStatuses now s, s.currentIndex⟩)

/-- `markKeyLimited(index, seconds)`: quarantine key `index` until
`Date.now() + seconds * 1000`; out-of-range indices are ignored. -/
def markKeyLimited (now index seconds : Nat) (s : PoolState) : PoolState :=
  if index < s.keyStatus.length then
    ⟨s.keyStatus.set index ⟨true, some (now + seconds * 1000)⟩, s.currentIndex⟩
  else s

/-- One diagnostic record of `getKeysInfo`. -/
structure KeyInfo where
  index : Nat
  limited : Bool
  resetTime : Option Nat
deriving DecidableEq

/-- `getKeysInfo`: read-only diagnostic snapshot of the pool. -/
def getKeysInfo (s : PoolState) : List KeyInfo :=
  (List.range s.keyStatus.length).map (fun i =>
    ⟨i, (s.keyStatus.getD i ⟨false, none⟩).limited,
      (s.keyStatus.getD i ⟨false, none⟩).resetTime⟩)

/-- The pool as constructed at startup: every key `{limited: false,
resetTime: null}`, cursor at `0`. -/
def initPool (n : Nat) : PoolState :=
  ⟨List.replicate n ⟨false, none⟩, 0⟩

example : (getAvailableClient 1 (initPool 2)).1 = some 0 := by decide
example : (getAvailableClient 1 (getAvailableClient 1 (initPool 2)).2).1 = some 0 := by decide
example : (getAvailableClient 7 (markKeyLimited 1 0 3600 (initPool 2))).1 = some 1 := by decide
example : (markKeyLimited 5 0 10 (initPool 1)).keyStatus = [⟨true, some 10005⟩] := by decide
example : resetIfExpired 10006 ⟨true, some 10005⟩ = ⟨false, none⟩ := by decide
example : resetIfExpired 10005 ⟨true, some 10005⟩ = ⟨true, some 10005⟩ := by decide
example : resetIfExpired 5 ⟨true, some 0⟩ = ⟨true, some 0⟩ := by decide

/-! ## Conversation building and the shared system preamble -/

/-- One conversation entry `{ role, content }`. -/
structure ChatMessage where
  role : String
  content : String
deriving DecidableEq

/-- The fixed SKSU domain preamble (`SKSU_CONTEXT` in both dispatcher
source files, identical text). -/
def SKSU_CONTEXT : String :=
  "You are an AI assistant for Sultan Kudarat State University (SKSU) Student Body Organization.\n\nSKSU Information:\n- Vision: \"A premier state university in Southeast Asia\"\n- Mission: Providing quality education, research, and community service\n- Location: Tacurong City, Sultan Kudarat, Philippines\n- Founded: 1983\n\nYou help students with:\n- Academic policies and procedures\n- Student services and welfare\n- University rules and regulations\n- Campus life and activities\n- General inquiries about SKSU\n\nGuidelines:\n- Be helpful, friendly, and professional\n- Provide accurate information about SKSU\n- If you don\x27t know something, admit it and suggest contacting the appropriate office\n- Keep responses concise and clear\n- Use a conversational but respectful tone"

/-- The system-role preamble entry prepended by `chatWithAI`. -/
def systemMessage : ChatMessage := ⟨"system", SKSU_CONTEXT⟩

/-- The trailing user-role entry holding the caller message. -/
def userMessage (m : String) : ChatMessage := ⟨"user", m⟩

/-- `messages = [system preamble, ...conversationHistory, user message]`. -/
def buildMessages (m : String) (history : List ChatMessage) : List ChatMessage :=
  systemMessage :: (history ++ [userMessage m])

/-! ## Single-backend dispatcher (`groq-ai.js`) -/

/-- Classified result of one backend invocation: either a completion whose
extracted `choices[0]?.message?.content` is the given optional string, or a
thrown error with optional HTTP `status` and a `message`. -/
inductive CallResult where
  | success (content : Option String)
  | failure (status : Option Nat) (message : String)
deriving DecidableEq

/-- JavaScript `x || fallback` on the extracted content (both `null` /
`undefined` and the empty string are falsy). -/
def jsOr (content : Option String) (fallback : String) : String :=
  match content with
  | some c => if c = "" then fallback else c
  | none => fallback

/-- Rate-limit classification of `groq-ai.js`:
`error?.status === 429 || /rate limit|quota|too many requests/i.test(...)`. -/
def isRateError (status : Option Nat) (msg : String) : Bool :=
  status == some 429 || containsCI msg "rate limit" || containsCI msg "quota"
    || containsCI msg "too many requests"

/-- Authentication classification of `groq-ai.js`:
`error?.status === 401 || /invalid api key|unauthorized/i.test(...)`. -/
def isAuthError (status : Option Nat) (msg : String) : Bool :=
  status == some 401 || containsCI msg "invalid api key" || containsCI msg "unauthorized"

/-- A failure that the `groq-ai.js` attempt loop treats via its
authentication branch (the rate-limit branch is tested first). -/
def authClassifiedG : CallResult → Bool
  | CallResult.success _ => false
  | CallResult.failure st msg => !isRateError st msg && isAuthError st msg

/-- A failure that falls through both classification branches of
`groq-ai.js` (the transient / other-error case). -/
def transientClassifiedG : CallResult → Bool
  | CallResult.success _ => false
  | CallResult.failure st msg => !isRateError st msg && !isAuthError st msg

/-- Startup configuration read by `groq-ai.js`: presence of the two env
variables echoed in the no-keys message, the key cooldown, and the raw
`GROQ_MAX_ATTEMPTS` value. -/
structure GroqConfig where
  hasKeysEnv : Bool
  hasKeyEnv : Bool
  cooldownSeconds : Nat
  maxAttempts : Nat
deriving DecidableEq

/-- Outcome of one `chatWithAI` call: the returned text, the key-pool state
afterwards, and how many backend invocations were performed. -/
structure GroqResult where
  text : String
  pool : PoolState
  invocations : Nat
deriving DecidableEq

/-- The no-keys degradation message, with the env-var debug interpolation. -/
def noKeysMsg (hasKeysEnv hasKeyEnv : Bool) : String :=
  "The AI service is currently unavailable (no API keys). (Env vars: GROQ_API_KEYS="
    ++ jsBool hasKeysEnv ++ ", GROQ_API_KEY=" ++ jsBool hasKeyEnv
    ++ ") Please try again later or use FAQ mode."

/-- Fallback when a completion succeeded but its content was falsy. -/
def emptyContentMsg : String :=
  "I apologize, but I could not generate a response. Please try again."

/-- Message returned on an authentication-classified failure. -/
def authErrMsg : String :=
  "AI service authentication error. Please check the API key configuration."

/-- Message returned on an unclassified (transient) failure. -/
def otherErrMsg : String :=
  "An error occurred while contacting the AI service. Please try again later or use FAQ mode."

/-- Message returned when the attempt budget is exhausted. -/
def allFailedMsg : String :=
  "The AI service is currently unavailable due to rate limits or errors. Please try again later."

/-- The attempt loop of `groq-ai.js` `chatWithAI`, with `fuel` remaining
attempts: select a key, invoke the backend (`oracle inv` is the classified
result of invocation number `inv`), and on failure either quarantine and
retry (rate limit) or return a degradation message. -/
def chatLoop (cfg : GroqConfig) (oracle : Nat → CallResult) (now : Nat) :
    Nat → PoolState → Nat → GroqResult
  | 0, s, inv => ⟨allFailedMsg, s, inv⟩
  | Nat.succ fuel, s, inv =>
    match getAvailableClient now s with
    | (none, s1) => ⟨noKeysMsg cfg.hasKeysEnv cfg.hasKeyEnv, s1, inv⟩
    | (some idx, s1) =>
      match oracle inv with
      | CallResult.success content => ⟨jsOr content emptyContentMsg, s1, inv + 1⟩
      | CallResult.failure st msg =>
        if isRateError st msg then
          chatLoop cfg oracle now fuel (markKeyLimited now idx cfg.cooldownSeconds s1) (inv + 1)
        else if isAuthError st msg then ⟨authErrMsg, s1, inv + 1⟩
        else ⟨otherErrMsg, s1, inv + 1⟩

/-- `chatWithAI` of `groq-ai.js`: run the attempt loop with budget
`Math.max(1, GROQ_MAX_ATTEMPTS or 3)`. -/
def groqChatWithAI (cfg : GroqConfig) (oracle : Nat → CallResult) (now : Nat)
    (s : PoolState) : GroqResult :=
  chatLoop cfg oracle now (max 1 cfg.maxAttempts) s 0

example :
    (groqChatWithAI ⟨true, false, 3600, 3⟩ (fun _ => CallResult.success (some "hi")) 1
      (initPool 2)).text = "hi" := by decide
example :
    (groqChatWithAI ⟨true, false, 3600, 3⟩
      (fun i => if i = 0 then CallResult.failure (some 429) "" else CallResult.success (some "ok"))
      1 (initPool 2)).text = "ok" := by decide
example :
    (groqChatWithAI ⟨true, false, 3600, 3⟩
      (fun i => if i = 0 then CallResult.failure (some 429) "" else CallResult.success (some "ok"))
      1 (initPool 2)).pool.keyStatus = [⟨true, some 3600001⟩, ⟨false, none⟩] := by decide
example :
    (groqChatWithAI ⟨true, false, 3600, 3⟩ (fun _ => CallResult.failure (some 401) "") 1
      (initPool 2)).text = authErrMsg := by decide
example :
    (groqChatWithAI ⟨true, false, 3600, 2⟩ (fun _ => CallResult.failure (some 429) "") 1
      (initPool 5)).text = allFailedMsg := by decide

/-! ## Multi-provider dispatcher (the unnamed `multi-ai` source file) -/

/-- One configured provider entry: `{ name, priority, client, limited,
resetTime }` (the SDK client object is irrelevant to the control flow). -/
structure Provider where
  name : String
  priority : Nat
  limited : Bool
  resetTime : Option Nat
deriving DecidableEq

/-- Result of one provider invocation: the string extracted by the
per-provider chat function (empty when the backend produced nothing, e.g.
the `|| ''` of `chatWithGroq`), or a thrown error with optional `status`,
optional `statusCode` and a `message`. -/
inductive ProviderResult where
  | success (text : String)
  | failure (status statusCode : Option Nat) (message : String)
deriving DecidableEq

/-- Rate-limit classification of the multi-provider dispatcher. -/
def isRateError2 (status statusCode : Option Nat) (msg : String) : Bool :=
  status == some 429 || statusCode == some 429 || containsCI msg "rate limit"
    || containsCI msg "quota" || containsCI msg "too many requests"
    || containsCI msg "resource exhausted"

/-- Authentication classification of the multi-provider dispatcher:
`status/statusCode === 401 || /invalid.*key|unauthorized|authentication/i`. -/
def isAuthError2 (status statusCode : Option Nat) (msg : String) : Bool :=
  status == some 401 || statusCode == some 401 || invalidKeyMatch msg
    || containsCI msg "unauthorized" || containsCI msg "authentication"

/-- A failure handled by the auth branch of the multi-provider loop (its
rate-limit branch is tested first). -/
def authClassified2 : ProviderResult → Bool
  | ProviderResult.success _ => false
  | ProviderResult.failure st stc msg => !isRateError2 st stc msg && isAuthError2 st stc msg

/-- A failure falling through both classification branches. -/
def transientClassified2 : ProviderResult → Bool
  | ProviderResult.success _ => false
  | ProviderResult.failure st stc msg => !isRateError2 st stc msg && !isAuthError2 st stc msg

/-- `markProviderLimited(name, seconds)`: quarantine the first provider with
the given name until `Date.now() + seconds * 1000` (no-op when absent). -/
def markProviderLimited (now : Nat) (name : String) (seconds : Nat) :
    List Provider → List Provider
  | [] => []
  | p :: ps =>
    if p.name = name then ⟨p.name, p.priority, true, some (now + seconds * 1000)⟩ :: ps
    else p :: markProviderLimited now name seconds ps

/-- The per-provider expiry reset of `resetExpiredProviders` (same truthiness
guards as the key pool). -/
def resetProvider (now : Nat) (p : Provider) : Provider :=
  if p.limited && jsTruthyTime p.resetTime && decide (timeValue p.resetTime < now)
  then ⟨p.name, p.priority, false, none⟩ else p

/-- `resetExpiredProviders`: sweep the provider list. -/
def resetExpiredProviders (now : Nat) (pool : List Provider) : List Provider :=
  pool.map (resetProvider now)

/-- The snapshot taken by `getAvailableProviders` after the sweep: the
non-limited providers, stably sorted by ascending priority. -/
def availableOf (pool : List Provider) : List Provider :=
  List.insertionSort (fun a b => a.priority ≤ b.priority)
    (pool.filter (fun p => !p.limited))

/-- The `switch (provider.name)` arms; any other name hits `default:
continue` without an invocation. -/
def validName (name : String) : Bool :=
  name == "gemini" || name == "cohere" || name == "groq"

/-- Result of the provider loop: the successful response if any, the
provider list afterwards, and the number of invocations performed. -/
structure TryOutcome where
  response : Option String
  pool : List Provider
  invocations : Nat
deriving DecidableEq

/-- The failover loop of the multi-provider `chatWithAI` over the snapshot
of available provider names: invoke each in turn (`oracle inv` is the
classified result of invocation number `inv`); return a truthy response
immediately; quarantine 3600 s on rate limits and 86400 s on auth failures;
continue on anything else. -/
def tryProviders (oracle : Nat → ProviderResult) (now : Nat) :
    List String → List Provider → Nat → TryOutcome
  | [], pool, inv => ⟨none, pool, inv⟩
  | name :: rest, pool, inv =>
    if validName name then
      match oracle inv with
      | ProviderResult.success resp =>
        if resp = "" then tryProviders oracle now rest pool (inv + 1)
        else ⟨some resp, pool, inv + 1⟩
      | ProviderResult.failure st stc msg =>
        if isRateError2 st stc msg then
          tryProviders oracle now rest (markProviderLimited now name 3600 pool) (inv + 1)
        else if isAuthError2 st stc msg then
          tryProviders oracle now rest (markProviderLimited now name 86400 pool) (inv + 1)
        else tryProviders oracle now rest pool (inv + 1)
    else tryProviders oracle now rest pool inv

/-- Message returned when the available-provider snapshot is empty. -/
def noProvidersMsg : String :=
  "The AI service is currently unavailable. All providers are rate-limited or not configured. Please try again later or use FAQ mode."

/-- Message returned when every available provider was tried without a
truthy response. -/
def allUnavailableMsg : String :=
  "I apologize, but all AI services are currently unavailable. Please try again later or use FAQ mode for instant answers."

/-- Outcome of one multi-provider `chatWithAI` call. -/
structure MultiResult where
  text : String
  pool : List Provider
  invocations : Nat
deriving DecidableEq

/-- `chatWithAI` of the multi-provider dispatcher: sweep expiries, snapshot
the available providers sorted by priority, and run the failover loop. -/
def multiChatWithAI (oracle : Nat → ProviderResult) (now : Nat)
    (pool : List Provider) : MultiResult :=
  let pool1 := resetExpiredProviders now pool
  let avail := availableOf pool1
  if avail.isEmpty then ⟨noProvidersMsg, pool1, 0⟩
  else
    let r := tryProviders oracle now (avail.map (fun p => p.name)) pool1 0
    match r.response with
    | some resp => ⟨resp, r.pool, r.invocations⟩
    | none => ⟨allUnavailableMsg, r.pool, r.invocations⟩

/-- `getProvidersInfo`: read-only diagnostic snapshot. -/
def getProvidersInfo (pool : List Provider) : List (String × Nat × Bool × Option Nat) :=
  pool.map (fun p => (p.name, p.priority, p.limited, p.resetTime))

def poolGemCo : List Provider := [⟨"gemini", 1, false, none⟩, ⟨"cohere", 2, false, none⟩]

example : (multiChatWithAI (fun _ => ProviderResult.success "hi") 1 poolGemCo).text = "hi" := by decide
example :
    (multiChatWithAI (fun _ => ProviderResult.failure none none "boom") 1 poolGemCo).invocations
      = 2 := by decide
example :
    (multiChatWithAI (fun i => if i = 0 then ProviderResult.failure (some 401) none ""
        else ProviderResult.success "ok") 1 poolGemCo).text = "ok" := by decide
example :
    (multiChatWithAI (fun i => if i = 0 then ProviderResult.failure (some 401) none ""
        else ProviderResult.success "ok") 1 poolGemCo).pool
      = [⟨"gemini", 1, true, some 86400001⟩, ⟨"cohere", 2, false, none⟩] := by decide
example : (multiChatWithAI (fun _ => ProviderResult.success "hi") 1 []).text
      = noProvidersMsg := by decide
example : invalidKeyMatch "Invalid API key provided" = true := by decide
example : invalidKeyMatch "invalid\nkey" = false := by decide
example : isAuthError2 none none "Authentication failed" = true := by decide

/-! ## Operation sequences over the key pool (for the pool invariant) -/

/-- One externally callable pool operation (`getKeysInfo` reads but does not
write, so its state effect is the identity). -/
inductive PoolOp where
  | select (now : Nat)
  | mark (now index seconds : Nat)
  | info
deriving DecidableEq

/-- State effect of one pool operation. -/
def applyOp (s : PoolState) : PoolOp → PoolState
  | PoolOp.select now => (getAvailableClient now s).2
  | PoolOp.mark now index seconds => markKeyLimited now index seconds s
  | PoolOp.info => s

/-- State after a sequence of pool operations. -/
def applyOps (ops : List PoolOp) (s : PoolState) : PoolState :=
  ops.foldl applyOp s

/-- A pool shared by several concrete scenarios: two keys, both available,
cursor at `0`. -/
def poolTwoAvail : PoolState := ⟨[⟨false, none⟩, ⟨false, none⟩], 0⟩

/-- A pool with a single available key, cursor at `0`. -/
def poolOneAvail : PoolState := ⟨[⟨false, none⟩], 0⟩

/-- Configuration with defaults: `GROQ_API_KEYS` set, cooldown 3600 s,
maxAttempts 3. -/
def cfgDefault : GroqConfig := ⟨true, false, 3600, 3⟩

/-- Configuration whose keys come from neither `GROQ_API_KEYS` nor
`GROQ_API_KEY` (e.g. only `GROQ_API_KEY_1` is set). -/
def cfgNoEnv : GroqConfig := ⟨false, false, 3600, 3⟩

/-- Oracle: first invocation fails with HTTP 401, any retry would succeed. -/
def oracleAuthG : Nat → CallResult :=
  fun i => if i = 0 then CallResult.failure (some 401) "" else CallResult.success (some "ok")

/-- Oracle: first invocation fails with an unclassified error, any retry
would succeed. -/
def oracleTransientG : Nat → CallResult :=
  fun i => if i = 0 then CallResult.failure none "boom" else CallResult.success (some "ok")

/-- Oracle: every invocation succeeds with `"hi"`. -/
def oracleHi : Nat → CallResult := fun _ => CallResult.success (some "hi")

/-- Multi-provider oracle: every invocation fails transiently. -/
def oracleTransient2 : Nat → ProviderResult :=
  fun _ => ProviderResult.failure none none "boom"

/-- Multi-provider oracle: every invocation fails with HTTP 401. -/
def oracleAuth2 : Nat → ProviderResult :=
  fun _ => ProviderResult.failure (some 401) none ""

/-- A pool whose only key is quarantined far into the future. -/
def poolAllQuar : PoolState := ⟨[⟨true, some 10000000⟩], 0⟩

/-! ## List helper lemmas -/

theorem listGetDSetSelf {α : Type} (l : List α) (i : Nat) (a d : α)
    (hi : i < l.length) : (l.set i a).getD i d = a := by
  induction l generalizing i with
  | nil => simp at hi
  | cons x xs ih =>
    cases i with
    | zero => rfl
    | succ n => simpa [List.getD_cons_succ] using ih n (by simpa using hi)

theorem listGetDMap {α β : Type} (f : α → β) (l : List α) (i : Nat) (d : α)
    (e : β) (hi : i < l.length) : (l.map f).getD i e = f (l.getD i d) := by
  induction l generalizing i with
  | nil => simp at hi
  | cons x xs ih =>
    cases i with
    | zero => rfl
    | succ n => simpa [List.getD_cons_succ] using ih n (by simpa using hi)

theorem memOfMemSet {α : Type} (l : List α) (i : Nat) (a b : α)
    (hb : b ∈ l.set i a) : b ∈ l ∨ b = a := by
  induction l generalizing i with
  | nil => simp [List.set] at hb
  | cons x xs ih =>
    cases i with
    | zero =>
      rcases List.mem_cons.1 hb with h | h
      · right; exact h
      · left; exact List.mem_cons_of_mem _ h
    | succ n =>
      rcases List.mem_cons.1 hb with h | h
      · left; exact h ▸ List.mem_cons_self _ _
      · rcases ih n h with h2 | h2
        · left; exact List.mem_cons_of_mem _ h2
        · right; exact h2

/-! ## Facts about the selection scan -/

theorem resetIfExpired_not_limited (now : Nat) (st : KeyStatus)
    (h : st.limited = false) : resetIfExpired now st = st := by
  simp [resetIfExpired, h]

theorem scanFrom_some (st : List KeyStatus) (cur : Nat) :
    ∀ (fuel i j : Nat), 0 < st.length → scanFrom st cur i fuel = some j →
      j < st.length ∧ (st.getD j ⟨false, none⟩).limited = false := by
  intro fuel
  induction fuel with
  | zero => intro i j _ h; simp [scanFrom] at h
  | succ n ih =>
    intro i j hlen h
    simp only [scanFrom] at h
    by_cases hl : (st.getD ((cur + i) % st.length) ⟨false, none⟩).limited
    · rw [if_pos hl] at h
      exact ih (i + 1) j hlen h
    · rw [if_neg hl] at h
      injection h with h
      subst h
      exact ⟨Nat.mod_lt _ hlen, by simpa using hl⟩

theorem scanFrom_all_limited (st : List KeyStatus) (cur : Nat)
    (hall : ∀ j, j < st.length → (st.getD j ⟨false, none⟩).limited = true) :
    ∀ (fuel i : Nat), 0 < st.length → scanFrom st cur i fuel = none := by
  intro fuel
  induction fuel with
  | zero => intro i _; rfl
  | succ n ih =>
    intro i hlen
    simp only [scanFrom]
    rw [if_pos (hall _ (Nat.mod_lt _ hlen))]
    exact ih (i + 1) hlen


/-- Claim C4 (counterexample): with two eligible keys and unchanged health
state, two consecutive `getAvailableClient` calls both return key `0` — the
code sets `currentIndex` to the returned index (`currentIndex = idx`)
rather than past it, so repeated calls do not rotate. -/
theorem rotation_counterexample :
    poolTwoAvail.keyStatus.all (fun st => !st.limited) = true ∧
    poolTwoAvail.keyStatus.length = 2 ∧
    (getAvailableClient 1 poolTwoAvail).1 = some 0 ∧
    (getAvailableClient 1 (getAvailableClient 1 poolTwoAvail).2).1 = some 0 := by
  decide

/-- Claim C4 (amended): `getAvailableClient` sets the cursor to the index of
the resource it returns (not past it), so with unchanged health state the
next call returns the same resource again; the cursor is left unchanged by
calls that return nothing. -/
theorem getAvailableClient_some (now : Nat) (s : PoolState) (idx : Nat)
    (h : (getAvailableClient now s).1 = some idx) :
    s.keyStatus.length ≠ 0 ∧
    scanFrom (refreshStatuses now s) s.currentIndex 0
      (refreshStatuses now s).length = some idx ∧
    getAvailableClient now s = (some idx, ⟨refreshStatuses now s, idx⟩) := by
  unfold getAvailableClient at h ⊢
  by_cases he : s.keyStatus.length = 0
  · rw [if_pos he] at h; simp at h
  · rw [if_neg he] at h ⊢
    cases hscan : scanFrom (refreshStatuses now s) s.currentIndex 0
        (refreshStatuses now s).length with
    | none => rw [hscan] at h; simp at h
    | some j =>
      rw [hscan] at h
      have hj : j = idx := by simpa using h
      subst hj
      exact ⟨he, rfl, rfl⟩

theorem selection_cursor_sticky :
    (∀ now s idx, (getAvailableClient now s).1 = some idx →
      (getAvailableClient now s).2.currentIndex = idx) ∧
    (∀ now now2 s idx, (getAvailableClient now s).1 = some idx →
      (getAvailableClient now2 (getAvailableClient now s).2).1 = some idx) ∧
    (∀ now s, (getAvailableClient now s).1 = none →
      (getAvailableClient now s).2.currentIndex = s.currentIndex) := by
  refine ⟨?_, ?_, ?_⟩
  · intro now s idx h
    rw [(getAvailableClient_some now s idx h).2.2]
  · intro now now2 s idx h
    obtain ⟨hne, hscan, heq⟩ := getAvailableClient_some now s idx h
    have hlenpos : 0 < s.keyStatus.length := Nat.pos_of_ne_zero hne
    have hRlen : (refreshStatuses now s).length = s.keyStatus.length := by
      simp [refreshStatuses]
    obtain ⟨hidx, hunlim⟩ :=
      scanFrom_some (refreshStatuses now s) s.currentIndex
        (refreshStatuses now s).length 0 idx (by omega) hscan
    rw [heq]
    set R : List KeyStatus := refreshStatuses now s with hR
    have hR2 : refreshStatuses now2 ⟨R, idx⟩ = R.map (resetIfExpired now2) := rfl
    have hR2len : (R.map (resetIfExpired now2)).length = R.length := by simp
    have hstat : ((R.map (resetIfExpired now2)).getD idx ⟨false, none⟩).limited = false := by
      rw [listGetDMap (resetIfExpired now2) R idx ⟨false, none⟩ ⟨false, none⟩ hidx]
      rw [resetIfExpired_not_limited now2 _ hunlim]
      exact hunlim
    unfold getAvailableClient
    have hne2 : (⟨R, idx⟩ : PoolState).keyStatus.length ≠ 0 := by
      simp only []
      omega
    rw [if_neg hne2]
    obtain ⟨m, hm⟩ : ∃ m, (refreshStatuses now2 ⟨R, idx⟩).length = m + 1 := by
      refine ⟨(refreshStatuses now2 ⟨R, idx⟩).length - 1, ?_⟩
      rw [hR2, hR2len]
      omega
    rw [hm]
    simp only [scanFrom]
    have hmod : (idx + 0) % (refreshStatuses now2 ⟨R, idx⟩).length = idx := by
      rw [hR2, hR2len]
      exact Nat.mod_eq_of_lt (by omega)
    rw [hmod, hR2, if_neg (by rw [hstat]; exact Bool.false_ne_true)]
  · intro now s h
    unfold getAvailableClient at h ⊢
    by_cases he : s.keyStatus.length = 0
    · rw [if_pos he]
    · rw [if_neg he] at h ⊢
      cases hscan : scanFrom (refreshStatuses now s) s.currentIndex 0
          (refreshStatuses now s).length with
      | none => rfl
      | some j => rw [hscan] at h; simp at h

/-- Claim C4 (witness for the amended theorem). -/
theorem selection_cursor_sticky_witness :
    (getAvailableClient 1 poolTwoAvail).1 = some 0 ∧
    (getAvailableClient 2 (getAvailableClient 1 poolTwoAvail).2).1 = some 0 :=
  ⟨by decide, selection_cursor_sticky.2.1 1 2 poolTwoAvail 0 (by decide)⟩


/-- Claim C5 (counterexample): a resource quarantined at time `t = 0` with
cooldown `d = 0` stores `resetTime = 0`, which is falsy in JavaScript, so
the expiry check never fires: at query time `q = 5 > t + d` the key is
still limited and not selectable, contradicting the claimed eligibility for
every `q > t + d`. -/
theorem cooldown_epoch_counterexample :
    (markKeyLimited 0 0 0 poolOneAvail).keyStatus.getD 0 ⟨false, none⟩
        = ⟨true, some 0⟩ ∧
    (resetIfExpired 5 ⟨true, some 0⟩).limited = true ∧
    (getAvailableClient 5 (markKeyLimited 0 0 0 poolOneAvail)).1 = none := by
  decide

/-- Claim C5 (amended): quarantining key `i` at time `t` (milliseconds) with
cooldown `d` seconds stores the status `{limited: true, resetTime: t +
d·1000}`; provided that stored expiry is nonzero (true for every real clock
reading), the lazy expiry check leaves the key limited — hence not
selectable — at every query time `q ≤ t + d·1000`, and resets it to
`{limited: false, resetTime: null}` (selectable) at every `q > t + d·1000`. -/
theorem quarantine_window_correct (s : PoolState) (i t d q : Nat)
    (hi : i < s.keyStatus.length) (hpos : 0 < t + d * 1000) :
    (markKeyLimited t i d s).keyStatus.getD i ⟨false, none⟩
        = ⟨true, some (t + d * 1000)⟩ ∧
    ((resetIfExpired q ⟨true, some (t + d * 1000)⟩).limited = false ↔ t + d * 1000 < q) ∧
    resetIfExpired q ⟨true, some (t + d * 1000)⟩
        = (if t + d * 1000 < q then ⟨false, none⟩ else ⟨true, some (t + d * 1000)⟩) := by
  refine ⟨?_, ?_, ?_⟩
  · unfold markKeyLimited
    rw [if_pos hi]
    exact listGetDSetSelf s.keyStatus i _ _ hi
  · unfold resetIfExpired
    by_cases hq : t + d * 1000 < q
    · rw [if_pos (by simp [jsTruthyTime, timeValue, hq]; omega)]
      simpa using hq
    · rw [if_neg (by simp [jsTruthyTime, timeValue]; omega)]
      simpa using hq
  · unfold resetIfExpired
    by_cases hq : t + d * 1000 < q
    · rw [if_pos (by simp [jsTruthyTime, timeValue, hq]; omega), if_pos hq]
    · rw [if_neg (by simp [jsTruthyTime, timeValue]; omega), if_neg hq]

/-- Claim C5 (witness for the amended theorem). -/
theorem quarantine_window_correct_witness :
    (0 < poolOneAvail.keyStatus.length ∧ 0 < 100 + 3600 * 1000) ∧
    ((markKeyLimited 100 0 3600 poolOneAvail).keyStatus.getD 0 ⟨false, none⟩
        = ⟨true, some (100 + 3600 * 1000)⟩ ∧
      ((resetIfExpired 3600100 ⟨true, some (100 + 3600 * 1000)⟩).limited = false ↔
        100 + 3600 * 1000 < 3600100) ∧
      resetIfExpired 3600100 ⟨true, some (100 + 3600 * 1000)⟩
        = (if 100 + 3600 * 1000 < 3600100 then ⟨false, none⟩
           else ⟨true, some (100 + 3600 * 1000)⟩)) :=
  ⟨⟨by decide, by decide⟩,
    quarantine_window_correct poolOneAvail 0 100 3600 3600100 (by decide) (by decide)⟩

/-- Claim C8 (confirmed): `markKeyLimited` always stores exactly
`now + seconds·1000` as the expiry, overwriting whatever was there before —
in particular a second marking of an already-quarantined key replaces (does
not extend) the stored timestamp. -/
theorem quarantine_overwrites (s : PoolState) (i now d now2 d2 : Nat)
    (hi : i < s.keyStatus.length) :
    (markKeyLimited now i d s).keyStatus.getD i ⟨false, none⟩
        = ⟨true, some (now + d * 1000)⟩ ∧
    (markKeyLimited now2 i d2 (markKeyLimited now i d s)).keyStatus.getD i ⟨false, none⟩
        = ⟨true, some (now2 + d2 * 1000)⟩ := by
  have hlen : (markKeyLimited now i d s).keyStatus.length = s.keyStatus.length := by
    unfold markKeyLimited
    rw [if_pos hi]
    simp
  constructor
  · unfold markKeyLimited
    rw [if_pos hi]
    exact listGetDSetSelf s.keyStatus i _ _ hi
  · conv_lhs => rw [markKeyLimited]
    rw [if_pos (by omega)]
    exact listGetDSetSelf _ i _ _ (by omega)

/-- Claim C8 (witness): marking an already-quarantined key at time `50`
with a `2`-second cooldown replaces the stored expiry with `2050`. -/
theorem quarantine_overwrites_witness :
    0 < (⟨[⟨true, some 999999⟩], 0⟩ : PoolState).keyStatus.length ∧
    ((markKeyLimited 10 0 1 ⟨[⟨true, some 999999⟩], 0⟩).keyStatus.getD 0 ⟨false, none⟩
        = ⟨true, some (10 + 1 * 1000)⟩ ∧
      (markKeyLimited 50 0 2 (markKeyLimited 10 0 1 ⟨[⟨true, some 999999⟩], 0⟩)).keyStatus.getD
          0 ⟨false, none⟩ = ⟨true, some (50 + 2 * 1000)⟩) :=
  ⟨by decide, quarantine_overwrites ⟨[⟨true, some 999999⟩], 0⟩ 0 10 1 50 2 (by decide)⟩

theorem getAvailableClient_keyStatus (now : Nat) (s : PoolState) :
    (getAvailableClient now s).2.keyStatus = s.keyStatus ∨
    (getAvailableClient now s).2.keyStatus = refreshStatuses now s := by
  unfold getAvailableClient
  by_cases he : s.keyStatus.length = 0
  · rw [if_pos he]; left; rfl
  · rw [if_neg he]
    cases scanFrom (refreshStatuses now s) s.currentIndex 0
        (refreshStatuses now s).length with
    | some idx => right; rfl
    | none => right; rfl

/-- Claim C10 (confirmed): starting from the startup pool and applying any
sequence of `getAvailableClient` / `markKeyLimited` / `getKeysInfo` calls,
every key status satisfies `limited = false ↔ resetTime = null`. -/
theorem pool_limited_iff_resetTime (ops : List PoolOp) (n : Nat) :
    ∀ st ∈ (applyOps ops (initPool n)).keyStatus,
      st.limited = false ↔ st.resetTime = none := by
  suffices h : ∀ (ops : List PoolOp) (s : PoolState),
      (∀ st ∈ s.keyStatus, st.limited = false ↔ st.resetTime = none) →
      ∀ st ∈ (applyOps ops s).keyStatus, st.limited = false ↔ st.resetTime = none by
    apply h
    intro st hst
    rw [List.eq_of_mem_replicate hst]
    simp
  intro ops
  induction ops with
  | nil => intro s hs; exact hs
  | cons op rest ih =>
    intro s hs
    have hstep : ∀ st ∈ (applyOp s op).keyStatus,
        st.limited = false ↔ st.resetTime = none := by
      cases op with
      | select now =>
        intro st hst
        rcases getAvailableClient_keyStatus now s with hk | hk
        · exact hs st (by rw [applyOp, hk] at hst; exact hst)
        · rw [applyOp, hk] at hst
          rcases List.mem_map.1 hst with ⟨x, hx, rfl⟩
          unfold resetIfExpired
          by_cases hc : x.limited && jsTruthyTime x.resetTime
              && decide (timeValue x.resetTime < now)
          · rw [if_pos hc]; simp
          · rw [if_neg hc]; exact hs x hx
      | mark now index seconds =>
        intro st hst
        rw [applyOp] at hst
        unfold markKeyLimited at hst
        by_cases hidx : index < s.keyStatus.length
        · rw [if_pos hidx] at hst
          rcases memOfMemSet _ _ _ _ hst with h | h
          · exact hs st h
          · rw [h]; simp
        · rw [if_neg hidx] at hst; exact hs st hst
      | info => exact hs
    have : applyOps (op :: rest) s = applyOps rest (applyOp s op) := rfl
    rw [this]
    exact ih (applyOp s op) hstep

/-- Claim C10 (witness): a mark followed by a selection past the expiry. -/
theorem pool_limited_iff_resetTime_witness :
    ((⟨false, none⟩ : KeyStatus)
        ∈ (applyOps [PoolOp.mark 5 0 10, PoolOp.select 99999999] (initPool 2)).keyStatus) ∧
    ((⟨false, none⟩ : KeyStatus).limited = false ↔
      (⟨false, none⟩ : KeyStatus).resetTime = none) :=
  ⟨by decide,
    pool_limited_iff_resetTime [PoolOp.mark 5 0 10, PoolOp.select 99999999] 2
      ⟨false, none⟩ (by decide)⟩

/-- Claim C9 (confirmed): the conversation sent to the backend is exactly
the fixed system preamble, then the caller-supplied history in order, then
the user message; the preamble entry is added exactly once (its count grows
by exactly one over the history, even when the history already contains
system-role entries). -/
theorem preamble_prepended_once (m : String) (hist : List ChatMessage) :
    buildMessages m hist = systemMessage :: (hist ++ [userMessage m]) ∧
    (buildMessages m hist).head? = some systemMessage ∧
    (buildMessages m hist).length = hist.length + 2 ∧
    (buildMessages m hist).count systemMessage = 1 + hist.count systemMessage := by
  refine ⟨rfl, rfl, by simp [buildMessages], ?_⟩
  have hne : userMessage m ≠ systemMessage := by
    intro h
    have := congrArg ChatMessage.role h
    simp [userMessage, systemMessage] at this
  rw [buildMessages, List.count_cons_self, List.count_append,
    List.count_singleton']
  simp only [if_neg hne]
  omega

theorem listGetDMem {α : Type} (l : List α) (i : Nat) (d : α) (h : i < l.length) :
    l.getD i d ∈ l := by
  induction l generalizing i with
  | nil => simp at h
  | cons x xs ih =>
    cases i with
    | zero => exact List.mem_cons_self _ _
    | succ n =>
      exact List.mem_cons_of_mem _ (by simpa [List.getD_cons_succ] using ih n (by simpa using h))

/-! ## Facts about the `groq-ai.js` attempt loop -/

theorem chatLoop_invocations_le (cfg : GroqConfig) (oracle : Nat → CallResult) (now : Nat) :
    ∀ (fuel : Nat) (s : PoolState) (inv : Nat),
      (chatLoop cfg oracle now fuel s inv).invocations ≤ inv + fuel := by
  intro fuel
  induction fuel with
  | zero => intro s inv; simp [chatLoop]
  | succ n ih =>
    intro s inv
    rw [chatLoop]
    cases hga : getAvailableClient now s with
    | mk fst s1 =>
      cases fst with
      | none => simp
      | some idx =>
        cases ho : oracle inv with
        | success content => simp
        | failure st msg =>
          cases hrate : isRateError st msg with
          | true =>
            simp only [hrate, if_true]
            exact le_trans (ih _ _) (by omega)
          | false =>
            cases hauth : isAuthError st msg with
            | true => simp only [hrate, hauth, Bool.false_eq_true, if_false, if_true]; simp
            | false => simp only [hrate, hauth, Bool.false_eq_true, if_false]; simp

theorem chatLoop_text_cases (cfg : GroqConfig) (oracle : Nat → CallResult) (now : Nat) :
    ∀ (fuel : Nat) (s : PoolState) (inv : Nat),
      (∃ i c, oracle i = CallResult.success (some c) ∧ c ≠ "" ∧
        (chatLoop cfg oracle now fuel s inv).text = c) ∨
      (chatLoop cfg oracle now fuel s inv).text = emptyContentMsg ∨
      (chatLoop cfg oracle now fuel s inv).text = noKeysMsg cfg.hasKeysEnv cfg.hasKeyEnv ∨
      (chatLoop cfg oracle now fuel s inv).text = authErrMsg ∨
      (chatLoop cfg oracle now fuel s inv).text = otherErrMsg ∨
      (chatLoop cfg oracle now fuel s inv).text = allFailedMsg := by
  intro fuel
  induction fuel with
  | zero =>
    intro s inv
    right; right; right; right; right; rfl
  | succ n ih =>
    intro s inv
    rw [chatLoop]
    cases hga : getAvailableClient now s with
    | mk fst s1 =>
      cases fst with
      | none => right; right; left; rfl
      | some idx =>
        cases ho : oracle inv with
        | success content =>
          cases content with
          | none => right; left; rfl
          | some c =>
            by_cases hc : c = ""
            · right; left; simp [jsOr, hc]
            · left; exact ⟨inv, c, ho, hc, by simp [jsOr, hc]⟩
        | failure st msg =>
          cases hrate : isRateError st msg with
          | true =>
            simp only [hrate, if_true]
            exact ih _ _
          | false =>
            cases hauth : isAuthError st msg with
            | true =>
              simp only [hrate, hauth, Bool.false_eq_true, if_false, if_true]
              right; right; right; left; trivial
            | false =>
              simp only [hrate, hauth, Bool.false_eq_true, if_false]
              right; right; right; right; left; trivial

/-! ## Facts about the multi-provider failover loop -/

theorem tryProviders_invocations_le (oracle : Nat → ProviderResult) (now : Nat) :
    ∀ (names : List String) (pool : List Provider) (inv : Nat),
      (tryProviders oracle now names pool inv).invocations ≤ inv + names.length := by
  intro names
  induction names with
  | nil => intro pool inv; simp [tryProviders]
  | cons name rest ih =>
    intro pool inv
    rw [tryProviders]
    by_cases hv : validName name
    · rw [if_pos hv]
      cases ho : oracle inv with
      | success resp =>
        by_cases hr : resp = ""
        · simp only [if_pos hr]
          exact le_trans (ih _ _) (by simp only [List.length_cons]; omega)
        · simp only [if_neg hr]
          simp
      | failure st stc msg =>
        cases h1 : isRateError2 st stc msg with
        | true =>
          simp only [h1, if_true]
          exact le_trans (ih _ _) (by simp only [List.length_cons]; omega)
        | false =>
          cases h2 : isAuthError2 st stc msg with
          | true =>
            simp only [h1, h2, Bool.false_eq_true, if_false, if_true]
            exact le_trans (ih _ _) (by simp only [List.length_cons]; omega)
          | false =>
            simp only [h1, h2, Bool.false_eq_true, if_false]
            exact le_trans (ih _ _) (by simp only [List.length_cons]; omega)
    · rw [if_neg hv]
      exact le_trans (ih _ _) (by simp only [List.length_cons]; omega)

theorem tryProviders_response_cases (oracle : Nat → ProviderResult) (now : Nat) :
    ∀ (names : List String) (pool : List Provider) (inv : Nat),
      (tryProviders oracle now names pool inv).response = none ∨
      ∃ i r, oracle i = ProviderResult.success r ∧ r ≠ "" ∧
        (tryProviders oracle now names pool inv).response = some r := by
  intro names
  induction names with
  | nil => intro pool inv; left; rfl
  | cons name rest ih =>
    intro pool inv
    rw [tryProviders]
    by_cases hv : validName name
    · rw [if_pos hv]
      cases ho : oracle inv with
      | success resp =>
        by_cases hr : resp = ""
        · simp only [if_pos hr]
          exact ih _ _
        · simp only [if_neg hr]
          right
          exact ⟨inv, resp, ho, hr, rfl⟩
      | failure st stc msg =>
        cases h1 : isRateError2 st stc msg with
        | true =>
          simp only [h1, if_true]
          exact ih _ _
        | false =>
          cases h2 : isAuthError2 st stc msg with
          | true =>
            simp only [h1, h2, Bool.false_eq_true, if_false, if_true]
            exact ih _ _
          | false =>
            simp only [h1, h2, Bool.false_eq_true, if_false]
            exact ih _ _
    · rw [if_neg hv]
      exact ih _ _

/-! ## The dispatch claims -/

/-- Claim C1 (confirmed): both dispatchers are total functions whose result
text is always displayable: either a genuine non-empty model output, or one
of the fixed degradation messages (empty-content fallback, no-keys /
no-providers, auth error, other error, attempts exhausted).  All backend
failures are consumed inside the dispatch loop; no modelled path escapes as
an exception. -/
theorem dispatch_total_text :
    (∀ (cfg : GroqConfig) (oracle : Nat → CallResult) (now : Nat) (s : PoolState),
      (∃ i c, oracle i = CallResult.success (some c) ∧ c ≠ "" ∧
        (groqChatWithAI cfg oracle now s).text = c) ∨
      (groqChatWithAI cfg oracle now s).text = emptyContentMsg ∨
      (groqChatWithAI cfg oracle now s).text = noKeysMsg cfg.hasKeysEnv cfg.hasKeyEnv ∨
      (groqChatWithAI cfg oracle now s).text = authErrMsg ∨
      (groqChatWithAI cfg oracle now s).text = otherErrMsg ∨
      (groqChatWithAI cfg oracle now s).text = allFailedMsg) ∧
    (∀ (oracle : Nat → ProviderResult) (now : Nat) (pool : List Provider),
      (∃ i r, oracle i = ProviderResult.success r ∧ r ≠ "" ∧
        (multiChatWithAI oracle now pool).text = r) ∨
      (multiChatWithAI oracle now pool).text = noProvidersMsg ∨
      (multiChatWithAI oracle now pool).text = allUnavailableMsg) := by
  constructor
  · intro cfg oracle now s
    exact chatLoop_text_cases cfg oracle now (max 1 cfg.maxAttempts) s 0
  · intro oracle now pool
    simp only [multiChatWithAI]
    by_cases he : (availableOf (resetExpiredProviders now pool)).isEmpty
    · rw [if_pos he]
      right; left; rfl
    · rw [if_neg he]
      rcases tryProviders_response_cases oracle now
          ((availableOf (resetExpiredProviders now pool)).map (fun p => p.name))
          (resetExpiredProviders now pool) 0 with hnone | ⟨i, r, ho, hr, hsome⟩
      · rw [hnone]
        right; right; rfl
      · rw [hsome]
        left
        exact ⟨i, r, ho, hr, rfl⟩

/-- Claim C2 (amended): the two dispatchers treat auth-classified failures
differently.  In the multi-provider dispatcher the failing provider is
quarantined for the long cooldown (86400 s, stored as `now + 86400·1000`
ms) and the loop continues with the next provider.  In the `groq-ai.js`
dispatcher an auth-classified failure terminates the call immediately with
the auth error message — the key is not quarantined and no further resource
is tried. -/
theorem auth_failure_paths :
    (∀ (oracle : Nat → ProviderResult) (now : Nat) (name : String) (rest : List String)
        (pool : List Provider) (inv : Nat),
      validName name = true → authClassified2 (oracle inv) = true →
      tryProviders oracle now (name :: rest) pool inv =
        tryProviders oracle now rest (markProviderLimited now name 86400 pool) (inv + 1)) ∧
    (∀ (now : Nat) (name : String) (seconds : Nat) (p : Provider) (ps : List Provider),
      p.name = name →
      markProviderLimited now name seconds (p :: ps) =
        ⟨p.name, p.priority, true, some (now + seconds * 1000)⟩ :: ps) ∧
    (∀ (cfg : GroqConfig) (oracle : Nat → CallResult) (now fuel : Nat) (s : PoolState)
        (inv idx : Nat),
      (getAvailableClient now s).1 = some idx → authClassifiedG (oracle inv) = true →
      chatLoop cfg oracle now (fuel + 1) s inv =
        ⟨authErrMsg, (getAvailableClient now s).2, inv + 1⟩) := by
  refine ⟨?_, ?_, ?_⟩
  · intro oracle now name rest pool inv hname hauth
    rw [tryProviders, if_pos hname]
    cases ho : oracle inv with
    | success resp => rw [ho] at hauth; simp [authClassified2] at hauth
    | failure st stc msg =>
      rw [ho] at hauth
      simp only [authClassified2, Bool.and_eq_true, Bool.not_eq_true'] at hauth
      obtain ⟨h1, h2⟩ := hauth
      simp only [h1, h2, Bool.false_eq_true, if_false, if_true]
  · intro now name seconds p ps hp
    rw [markProviderLimited, if_pos hp]
  · intro cfg oracle now fuel s inv idx hga1 hauth
    rw [chatLoop]
    cases hga : getAvailableClient now s with
    | mk fst s1 =>
      rw [hga] at hga1
      have hfst : fst = some idx := hga1
      subst hfst
      cases ho : oracle inv with
      | success content => rw [ho] at hauth; simp [authClassifiedG] at hauth
      | failure st msg =>
        rw [ho] at hauth
        simp only [authClassifiedG, Bool.and_eq_true, Bool.not_eq_true'] at hauth
        obtain ⟨h1, h2⟩ := hauth
        simp only [h1, h2, Bool.false_eq_true, if_false, if_true]

/-- Claim C3 (amended): a transient-classified failure never quarantines the
failing resource.  In the multi-provider dispatcher the loop continues with
the next provider and the provider list is untouched; in the `groq-ai.js`
dispatcher the call instead returns the generic error message immediately
(consuming one invocation) — and the selected key is left unlimited. -/
theorem transient_failure_paths :
    (∀ (oracle : Nat → ProviderResult) (now : Nat) (name : String) (rest : List String)
        (pool : List Provider) (inv : Nat),
      validName name = true → transientClassified2 (oracle inv) = true →
      tryProviders oracle now (name :: rest) pool inv =
        tryProviders oracle now rest pool (inv + 1)) ∧
    (∀ (cfg : GroqConfig) (oracle : Nat → CallResult) (now fuel : Nat) (s : PoolState)
        (inv idx : Nat),
      (getAvailableClient now s).1 = some idx → transientClassifiedG (oracle inv) = true →
      chatLoop cfg oracle now (fuel + 1) s inv =
        ⟨otherErrMsg, (getAvailableClient now s).2, inv + 1⟩) ∧
    (∀ (now : Nat) (s : PoolState) (idx : Nat),
      (getAvailableClient now s).1 = some idx →
      ((getAvailableClient now s).2.keyStatus.getD idx ⟨false, none⟩).limited = false) := by
  refine ⟨?_, ?_, ?_⟩
  · intro oracle now name rest pool inv hname htr
    rw [tryProviders, if_pos hname]
    cases ho : oracle inv with
    | success resp => rw [ho] at htr; simp [transientClassified2] at htr
    | failure st stc msg =>
      rw [ho] at htr
      simp only [transientClassified2, Bool.and_eq_true, Bool.not_eq_true'] at htr
      obtain ⟨h1, h2⟩ := htr
      simp only [h1, h2, Bool.false_eq_true, if_false]
  · intro cfg oracle now fuel s inv idx hga1 htr
    rw [chatLoop]
    cases hga : getAvailableClient now s with
    | mk fst s1 =>
      rw [hga] at hga1
      have hfst : fst = some idx := hga1
      subst hfst
      cases ho : oracle inv with
      | success content => rw [ho] at htr; simp [transientClassifiedG] at htr
      | failure st msg =>
        rw [ho] at htr
        simp only [transientClassifiedG, Bool.and_eq_true, Bool.not_eq_true'] at htr
        obtain ⟨h1, h2⟩ := htr
        simp only [h1, h2, Bool.false_eq_true, if_false]
  · intro now s idx h
    obtain ⟨hne, hscan, heq⟩ := getAvailableClient_some now s idx h
    obtain ⟨hidx, hunlim⟩ :=
      scanFrom_some (refreshStatuses now s) s.currentIndex
        (refreshStatuses now s).length 0 idx
        (by simp [refreshStatuses]; omega) hscan
    rw [heq]
    exact hunlim


/-- Claim C2 (counterexample): in the `groq-ai.js` dispatcher, an
auth-classified failure (HTTP 401) on the first attempt terminates the call
with the auth message after exactly one invocation; key 0 is not
quarantined and the second key (whose oracle call would have succeeded) is
never tried — contradicting "quarantine for the long cooldown and continue
with the next resource". -/
theorem auth_no_quarantine_counterexample :
    (groqChatWithAI cfgDefault oracleAuthG 1 poolTwoAvail).text = authErrMsg ∧
    (groqChatWithAI cfgDefault oracleAuthG 1 poolTwoAvail).invocations = 1 ∧
    ((groqChatWithAI cfgDefault oracleAuthG 1 poolTwoAvail).pool.keyStatus.getD 0
      ⟨false, none⟩).limited = false := by decide

/-- Claim C2 (witness for the amended theorem). -/
theorem auth_failure_paths_witness :
    (validName "gemini" = true ∧ authClassified2 (oracleAuth2 0) = true) ∧
    (tryProviders oracleAuth2 1 ["gemini", "cohere"] poolGemCo 0 =
      tryProviders oracleAuth2 1 ["cohere"] (markProviderLimited 1 "gemini" 86400 poolGemCo) 1) ∧
    (markProviderLimited 1 "gemini" 86400
        (⟨"gemini", 1, false, none⟩ :: [⟨"cohere", 2, false, none⟩]) =
      ⟨"gemini", 1, true, some (1 + 86400 * 1000)⟩ :: [⟨"cohere", 2, false, none⟩]) ∧
    (chatLoop cfgDefault oracleAuthG 1 (2 + 1) poolTwoAvail 0 =
      ⟨authErrMsg, (getAvailableClient 1 poolTwoAvail).2, 0 + 1⟩) :=
  ⟨⟨by decide, by decide⟩,
    auth_failure_paths.1 oracleAuth2 1 "gemini" ["cohere"] poolGemCo 0 (by decide) (by decide),
    auth_failure_paths.2.1 1 "gemini" 86400 ⟨"gemini", 1, false, none⟩
      [⟨"cohere", 2, false, none⟩] rfl,
    auth_failure_paths.2.2 cfgDefault oracleAuthG 1 2 poolTwoAvail 0 0 (by decide) (by decide)⟩

/-- Claim C3 (counterexample): in the `groq-ai.js` dispatcher, a
transient-classified failure on the first attempt returns the generic error
message after exactly one invocation, even though a second eligible key
existed whose oracle call would have succeeded and the attempt budget (3)
was not exhausted — the loop does not continue to the next resource. -/
theorem transient_stops_counterexample :
    (groqChatWithAI cfgDefault oracleTransientG 1 poolTwoAvail).text = otherErrMsg ∧
    (groqChatWithAI cfgDefault oracleTransientG 1 poolTwoAvail).invocations = 1 := by decide

/-- Claim C3 (witness for the amended theorem). -/
theorem transient_failure_paths_witness :
    (validName "gemini" = true ∧ transientClassified2 (oracleTransient2 0) = true) ∧
    (tryProviders oracleTransient2 1 ["gemini", "cohere"] poolGemCo 0 =
      tryProviders oracleTransient2 1 ["cohere"] poolGemCo 1) ∧
    (chatLoop cfgDefault oracleTransientG 1 (2 + 1) poolTwoAvail 0 =
      ⟨otherErrMsg, (getAvailableClient 1 poolTwoAvail).2, 0 + 1⟩) ∧
    (((getAvailableClient 1 poolTwoAvail).2.keyStatus.getD 0 ⟨false, none⟩).limited = false) :=
  ⟨⟨by decide, by decide⟩,
    transient_failure_paths.1 oracleTransient2 1 "gemini" ["cohere"] poolGemCo 0
      (by decide) (by decide),
    transient_failure_paths.2.1 cfgDefault oracleTransientG 1 2 poolTwoAvail 0 0
      (by decide) (by decide),
    transient_failure_paths.2.2 1 poolTwoAvail 0 (by decide)⟩

/-- Claim C6 (counterexample): the multi-provider dispatcher never reads
`GROQ_MAX_ATTEMPTS`; with the attempt budget configured to 1 and two
available providers both failing transiently, one call performs 2 backend
invocations, exceeding the configured budget. -/
theorem attempt_budget_counterexample :
    (multiChatWithAI oracleTransient2 1 poolGemCo).invocations = 2 ∧ ¬ (2 ≤ 1) := by decide

/-- Claim C6 (amended): the `groq-ai.js` dispatcher performs at most
`maxAttempts` backend invocations per call; the multi-provider dispatcher
ignores `maxAttempts` and instead performs at most one invocation per
provider in the available snapshot (bounded by pool size). -/
theorem attempt_budget :
    (∀ (cfg : GroqConfig) (oracle : Nat → CallResult) (now : Nat) (s : PoolState),
      1 ≤ cfg.maxAttempts →
      (groqChatWithAI cfg oracle now s).invocations ≤ cfg.maxAttempts) ∧
    (∀ (oracle : Nat → ProviderResult) (now : Nat) (pool : List Provider),
      (multiChatWithAI oracle now pool).invocations ≤
        (availableOf (resetExpiredProviders now pool)).length) := by
  constructor
  · intro cfg oracle now s hm
    have h := chatLoop_invocations_le cfg oracle now (max 1 cfg.maxAttempts) s 0
    have hmax : max 1 cfg.maxAttempts = cfg.maxAttempts := Nat.max_eq_right hm
    rw [groqChatWithAI]
    omega
  · intro oracle now pool
    simp only [multiChatWithAI]
    by_cases he : (availableOf (resetExpiredProviders now pool)).isEmpty
    · rw [if_pos he]
      simp
    · rw [if_neg he]
      have h := tryProviders_invocations_le oracle now
        ((availableOf (resetExpiredProviders now pool)).map (fun p => p.name))
        (resetExpiredProviders now pool) 0
      rw [List.length_map] at h
      cases hr : (tryProviders oracle now
          ((availableOf (resetExpiredProviders now pool)).map (fun p => p.name))
          (resetExpiredProviders now pool) 0).response with
      | some resp => simpa using h
      | none => simpa using h

/-- Claim C6 (witness for the amended theorem). -/
theorem attempt_budget_witness :
    1 ≤ cfgDefault.maxAttempts ∧
    (groqChatWithAI cfgDefault oracleHi 1 poolTwoAvail).invocations ≤ cfgDefault.maxAttempts ∧
    (multiChatWithAI oracleTransient2 1 poolGemCo).invocations ≤
      (availableOf (resetExpiredProviders 1 poolGemCo)).length :=
  ⟨by decide, attempt_budget.1 cfgDefault oracleHi 1 poolTwoAvail (by decide),
    attempt_budget.2 oracleTransient2 1 poolGemCo⟩

/-- Claim C7 (counterexample): when the keys come from `GROQ_API_KEY_1`
(so the two env flags echoed in the message are both false), the degraded
text for "no keys ever configured" (empty pool) is byte-for-byte identical
to the text for "all keys currently quarantined" — the two terminal causes
do not produce different messages. -/
theorem degraded_message_counterexample :
    (groqChatWithAI cfgNoEnv oracleHi 1 ⟨[], 0⟩).text =
      (groqChatWithAI cfgNoEnv oracleHi 1 poolAllQuar).text ∧
    (groqChatWithAI cfgNoEnv oracleHi 1 poolAllQuar).invocations = 0 := by decide

/-- Claim C7 (amended): the attempts-exhausted message always differs from
the no-keys message; the no-keys message is one shared template for "never
configured" and "all quarantined" (differing only in the interpolated
env-var presence flags, which can coincide); and whenever every key is
limited after the expiry sweep — in particular when every resource is
quarantined at call time — `chatWithAI` returns the no-keys message
immediately with zero backend invocations. -/
theorem degraded_messages :
    (∀ b1 b2, noKeysMsg b1 b2 ≠ allFailedMsg) ∧
    (∀ (cfg : GroqConfig) (oracle : Nat → CallResult) (now : Nat) (s : PoolState),
      (∀ st ∈ s.keyStatus, (resetIfExpired now st).limited = true) →
      (groqChatWithAI cfg oracle now s).text = noKeysMsg cfg.hasKeysEnv cfg.hasKeyEnv ∧
      (groqChatWithAI cfg oracle now s).invocations = 0) := by
  constructor
  · intro b1 b2
    cases b1 <;> cases b2 <;> decide
  · intro cfg oracle now s hall
    have hnone : (getAvailableClient now s).1 = none := by
      unfold getAvailableClient
      by_cases he : s.keyStatus.length = 0
      · rw [if_pos he]
      · rw [if_neg he]
        have hlen : (refreshStatuses now s).length = s.keyStatus.length := by
          simp [refreshStatuses]
        have hall2 : ∀ j, j < (refreshStatuses now s).length →
            ((refreshStatuses now s).getD j ⟨false, none⟩).limited = true := by
          intro j hj
          rw [hlen] at hj
          simp only [refreshStatuses]
          rw [listGetDMap (resetIfExpired now) s.keyStatus j ⟨false, none⟩ ⟨false, none⟩ hj]
          exact hall _ (listGetDMem s.keyStatus j ⟨false, none⟩ hj)
        rw [scanFrom_all_limited (refreshStatuses now s) s.currentIndex hall2
          (refreshStatuses now s).length 0 (by omega)]
    obtain ⟨fuel, hf⟩ : ∃ fuel, max 1 cfg.maxAttempts = fuel + 1 :=
      ⟨max 1 cfg.maxAttempts - 1, by have := Nat.le_max_left 1 cfg.maxAttempts; omega⟩
    rw [groqChatWithAI, hf, chatLoop]
    cases hga : getAvailableClient now s with
    | mk fst s1 =>
      rw [hga] at hnone
      have hfst : fst = none := hnone
      subst hfst
      exact ⟨rfl, rfl⟩

/-- Claim C7 (witness for the amended theorem). -/
theorem degraded_messages_witness :
    (noKeysMsg false false ≠ allFailedMsg) ∧
    ((groqChatWithAI cfgNoEnv oracleHi 1 poolAllQuar).text =
        noKeysMsg cfgNoEnv.hasKeysEnv cfgNoEnv.hasKeyEnv ∧
      (groqChatWithAI cfgNoEnv oracleHi 1 poolAllQuar).invocations = 0) :=
  ⟨degraded_messages.1 false false,
    degraded_messages.2 cfgNoEnv oracleHi 1 poolAllQuar (by decide)⟩
